import Mathlib

/-!
Shallow embedding of the Reiya real-estate analyzer backend
(rei-ai/backend/app/services): the analytics service (scoring and
aggregation), the AI service (audit-report generation with template
fallback), and the property service (sync upsert loop).

Modelling conventions:
* Python dict values that may be bool, int or str are modelled by `PyVal`;
  Python truthiness and the `isinstance(v, int)` test (true for bool and
  int, since bool is a subclass of int) are modelled explicitly.
* Python floats are modelled as exact rationals; the statistics that
  involve a square root (numpy std) and the standard normal cdf live in ℝ.
* `round(x, n)` is modelled by `pyRound`; ties round half-up here (Python
  uses half-even on floats); no claim below depends on tie direction.
* Dicts with optional keys are modelled as structures with `Option`
  fields; a function that may return an empty dict returns an `Option`.
-/

namespace ReiAI

/-- Value stored in a Python dict: bool, int, or string. -/
inductive PyVal where
  | bool (b : Bool)
  | int (n : ℤ)
  | str (s : String)
deriving DecidableEq

/-- Python truthiness of a `PyVal`. -/
def PyVal.truthy : PyVal → Bool
  | .bool b => b
  | .int n => n ≠ 0
  | .str s => s ≠ ""

/-- Python `isinstance(v, int)`: true for int and for bool (a subclass of int). -/
def PyVal.isIntInstance : PyVal → Bool
  | .bool _ => true
  | .int _ => true
  | .str _ => false

/-- Numeric value used when a `PyVal` is multiplied as an int (Python bools act as 0/1). -/
def PyVal.asInt : PyVal → ℤ
  | .bool b => if b then 1 else 0
  | .int n => n
  | .str _ => 0

/-- Lookup in a dict modelled as an association list (first binding wins). -/
def lookupVal (d : List (String × PyVal)) (k : String) : Option PyVal :=
  (d.find? fun p => p.1 == k).map Prod.snd

/-- The fixed amenity weight table of `AnalyticsService._calculate_amenity_score`. -/
def amenity_weights : List (String × ℤ) :=
  [("pool", 10), ("updated_kitchen", 8), ("hardwood_floors", 7), ("fireplace", 5),
   ("smart_home", 8), ("solar_panels", 10), ("new_hvac", 7), ("new_roof", 6),
   ("finished_basement", 9), ("garage", 3)]

/-- Contribution of one amenity key to the score: absent keys contribute 0; the
garage key with an int-instance value contributes value times weight; any other
present, truthy value contributes the weight. -/
def amenity_contribution (features : List (String × PyVal)) (name : String) (w : ℤ) : ℤ :=
  match lookupVal features name with
  | none => 0
  | some v =>
    if name = "garage" ∧ v.isIntInstance then v.asInt * w
    else if v.truthy then w else 0

/-- Embedding of `AnalyticsService._calculate_amenity_score`: empty feature map
returns 50; otherwise 50 plus the amenity contributions, capped at 100. -/
def calculate_amenity_score (features : List (String × PyVal)) : ℚ :=
  if features.isEmpty then 50
  else
    min ((50 : ℚ) +
      (((amenity_weights.map fun p => amenity_contribution features p.1 p.2).sum : ℤ) : ℚ)) 100

/-- Embedding of `AnalyticsService._calculate_structural_score`; the current
year read from the clock is an explicit parameter. -/
def calculate_structural_score (current_year year_built sqft : ℤ) : ℚ :=
  let age := current_year - year_built
  let age_score : ℚ :=
    if age < 5 then 100 else if age < 10 then 95 else if age < 20 then 85
    else if age < 30 then 75 else if age < 50 then 65 else 60
  let size_score : ℚ :=
    if 2000 ≤ sqft ∧ sqft ≤ 3500 then 100
    else if 1500 ≤ sqft ∧ sqft < 2000 then 90
    else if 3500 < sqft ∧ sqft ≤ 4500 then 90
    else if sqft < 1500 then 70
    else 75
  age_score * (0.6 : ℚ) + size_score * (0.4 : ℚ)

/-- Embedding of `AnalyticsService._calculate_location_score`. The second
argument is the `avg_price_per_sqft` entry of the street-stats dict; a missing
entry defaults to the price per sqft of the property itself, as in the source
`street_stats.get` call. -/
def calculate_location_score (price_per_sqft : ℚ) (avg_entry : Option ℚ) : ℚ :=
  let avg_ppsf := avg_entry.getD price_per_sqft
  if avg_ppsf = 0 then 75
  else
    let ratio := price_per_sqft / avg_ppsf
    if 0.95 ≤ ratio ∧ ratio ≤ 1.05 then 100
    else if 0.85 ≤ ratio ∧ ratio < 0.95 then 95
    else if 1.05 < ratio ∧ ratio ≤ 1.15 then 90
    else if ratio < 0.85 then 80
    else 70

/-- Python `round(x, n)` over exact rationals (ties half-up; see file header). -/
def pyRound (x : ℚ) (n : ℕ) : ℚ := ((round (x * 10 ^ n) : ℤ) : ℚ) / 10 ^ n

/-- The dict returned by `AnalyticsService._calculate_investment_metrics`. -/
structure InvestmentMetrics where
  rental_yield : ℚ
  appreciation_rate : ℚ
  demand_index : ℚ
  supply_index : ℚ
  volatility_score : ℚ
deriving DecidableEq

/-- Embedding of `AnalyticsService._calculate_investment_metrics` (the
reference year 2024 is hard-coded in the source). -/
def calculate_investment_metrics (sqft : ℤ) (list_price : ℚ) (year_built days_on_market : ℤ) :
    InvestmentMetrics :=
  let estimated_rent : ℚ := (sqft : ℚ) * (1.2 : ℚ)
  let annual_rent : ℚ := estimated_rent * 12
  let rental_yield : ℚ := if 0 < list_price then annual_rent / list_price * 100 else 0
  let age := 2024 - year_built
  let appreciation_rate : ℚ := if age < 10 then 4.5 else if age < 20 then 3.8 else 3.2
  let demand_index : ℚ :=
    if days_on_market < 15 then 90 else if days_on_market < 30 then 80
    else if days_on_market < 60 then 70 else 60
  { rental_yield := pyRound rental_yield 2
    appreciation_rate := pyRound appreciation_rate 2
    demand_index := demand_index
    supply_index := 70
    volatility_score := 25 }

/-! Aggregation: `AnalyticsService.calculate_street_stats` and
`AnalyticsService.compare_to_street`. The db query (address LIKE filter and
city equality) happens upstream; the embedding takes the already-filtered list
of rows. Rows have nullable numeric columns, modelled as `Option ℚ`. -/

/-- An ORM `Property` row restricted to the columns the aggregation reads. -/
structure StatRecord where
  list_price : Option ℚ
  price_per_sqft : Option ℚ
  sqft : Option ℚ
deriving DecidableEq

/-- The list comprehension `[f(p) for p in properties if f(p)]`: keeps values
that are present and truthy (Python truthiness drops both None and 0). -/
def truthyColumn (properties : List StatRecord) (f : StatRecord → Option ℚ) : List ℚ :=
  properties.filterMap fun p => (f p).bind fun v => if v = 0 then none else some v

/-- numpy mean (callers guard against the empty list). -/
def npMean (l : List ℚ) : ℚ := l.sum / l.length

/-- numpy median: middle element of the sorted list, or the average of the two
middle elements for even length. -/
def npMedian (l : List ℚ) : ℚ :=
  let s := l.mergeSort fun a b => decide (a ≤ b)
  let n := l.length
  if n % 2 = 1 then s.getD (n / 2) 0
  else (s.getD (n / 2 - 1) 0 + s.getD (n / 2) 0) / 2

/-- numpy population variance: mean of squared deviations (no Bessel correction). -/
def npVariance (l : List ℚ) : ℚ := npMean (l.map fun x => (x - npMean l) ^ 2)

/-- numpy population standard deviation. -/
noncomputable def npStd (l : List ℚ) : ℝ := Real.sqrt ((npVariance l : ℚ) : ℝ)

/-- The stats dict built by `calculate_street_stats` in the non-empty case
(all keys present). -/
structure StreetStatsOut where
  property_count : ℕ
  avg_price : ℚ
  median_price : ℚ
  avg_price_per_sqft : ℚ
  std_price : ℝ
  avg_sqft : ℚ

/-- Embedding of `AnalyticsService.calculate_street_stats`: an empty row set
returns the empty dict (modelled as `none`); otherwise each statistic is
computed over the rows with present, truthy values for its column, defaulting
to 0 when that sub-list is empty. -/
noncomputable def calculate_street_stats (properties : List StatRecord) : Option StreetStatsOut :=
  if properties.isEmpty then none
  else
    let prices := truthyColumn properties (fun p => p.list_price)
    let ppsf := truthyColumn properties (fun p => p.price_per_sqft)
    let sqfts := truthyColumn properties (fun p => p.sqft)
    some { property_count := properties.length
           avg_price := if prices.isEmpty then 0 else npMean prices
           median_price := if prices.isEmpty then 0 else npMedian prices
           avg_price_per_sqft := if ppsf.isEmpty then 0 else npMean ppsf
           std_price := if prices.isEmpty then 0 else npStd prices
           avg_sqft := if sqfts.isEmpty then 0 else npMean sqfts }

/-- Python `int(x)`: truncation toward zero. -/
noncomputable def pyTrunc (x : ℝ) : ℤ := if 0 ≤ x then ⌊x⌋ else ⌈x⌉

/-- The standard normal cumulative distribution function (scipy.stats.norm.cdf):
the integral of the standard normal density up to z. -/
noncomputable def normCdf (z : ℝ) : ℝ :=
  (∫ x in Set.Iic z, Real.exp (-(1 / 2) * x ^ 2)) / Real.sqrt (2 * Real.pi)

/-- Embedding of `AnalyticsService._zscore_to_percentile`: `int(norm.cdf(z) * 100)`. -/
noncomputable def zscore_to_percentile (z : ℝ) : ℤ := pyTrunc (normCdf z * 100)

/-- Python `round(x, n)` over the reals, for the z-score rounding. -/
noncomputable def pyRoundR (x : ℝ) (n : ℕ) : ℝ := ((round (x * 10 ^ n) : ℤ) : ℝ) / 10 ^ n

/-- The comparison dict of `compare_to_street`: every key is optional (each
sub-comparison is emitted only when its guard holds). -/
structure Comparison where
  price_zscore : Option ℝ
  price_percentile : Option ℤ
  ppsf_ratio : Option ℚ
  ppsf_vs_street : Option ℚ
  sqft_ratio : Option ℚ

/-- Embedding of `AnalyticsService.compare_to_street`. An empty stats dict
(`none`) yields the empty comparison. The z-score pair is emitted only when
`std_price > 0`; the ratio entries only when their baseline denominators are
positive. The property dict values read with `.get(key, 0)` are the three ℚ
arguments. -/
noncomputable def compare_to_street (price ppsf sqft : ℚ) (street_stats : Option StreetStatsOut) :
    Comparison :=
  match street_stats with
  | none => ⟨none, none, none, none, none⟩
  | some st =>
    let zpair : Option ℝ × Option ℤ :=
      if 0 < st.std_price then
        let z : ℝ := ((price : ℝ) - (st.avg_price : ℝ)) / st.std_price
        (some (pyRoundR z 2), some (zscore_to_percentile z))
      else (none, none)
    let ppsfpair : Option ℚ × Option ℚ :=
      if 0 < st.avg_price_per_sqft then
        let r := ppsf / st.avg_price_per_sqft
        (some (pyRound r 2), some (pyRound ((r - 1) * 100) 1))
      else (none, none)
    let sqpair : Option ℚ :=
      if 0 < st.avg_sqft then some (pyRound (sqft / st.avg_sqft) 2) else none
    { price_zscore := zpair.1
      price_percentile := zpair.2
      ppsf_ratio := ppsfpair.1
      ppsf_vs_street := ppsfpair.2
      sqft_ratio := sqpair }

/-! AI service: `AIService.generate_investment_audit` and
`AIService._generate_sample_audit`. The narrative `full_report` string and
the `sections` map derived from it are rendered text that no claim inspects;
the audit structure below carries all the numeric fields and the summary and
thesis strings. -/

/-- The analytics dict passed to the AI service (keys read with `.get` and a
default, so each field is optional). -/
structure AnalyticsDict where
  amenity_score : Option ℚ
  structural_score : Option ℚ
  location_score : Option ℚ
  rental_yield : Option ℚ
  appreciation_rate : Option ℚ
  demand_index : Option ℚ
  ai_valuation_score : Option ℚ
  ai_growth_score : Option ℚ
  ai_risk_score : Option ℚ
deriving DecidableEq

/-- The property dict fields read by the AI service. -/
structure PropertyDict where
  id : Option ℤ
  address : Option String
  list_price : Option ℚ
  price_per_sqft : Option ℚ
  sqft : Option ℤ
deriving DecidableEq

/-- The audit dict returned by the AI service. -/
structure Audit where
  property_id : Option ℤ
  summary : String
  investment_thesis : String
  overall_score : ℚ
  valuation_score : ℚ
  growth_score : ℚ
  risk_score : ℚ
deriving DecidableEq

/-- Python substring test `pat in s` (for non-empty pat). -/
def hasSub (s pat : String) : Bool := (s.splitOn pat).length != 1

/-- Loop body of `AIService._extract_summary`: scan lines, start collecting
after a line containing EXECUTIVE SUMMARY, keep non-empty non-heading stripped
lines, stop after three lines or at the next heading once something was kept. -/
def summary_scan : List String → Bool → List String → List String
  | [], _, acc => acc
  | line :: rest, in_sum, acc =>
    if hasSub line.toUpper "EXECUTIVE SUMMARY" then summary_scan rest true acc
    else if in_sum then
      let s := line.trim
      let acc2 := if s ≠ "" ∧ ¬ s.startsWith "#" then acc ++ [s] else acc
      if 3 ≤ acc2.length ∨ (s.startsWith "#" ∧ acc2 ≠ []) then acc2
      else summary_scan rest in_sum acc2
    else summary_scan rest in_sum acc

/-- Embedding of `AIService._extract_summary`. -/
def extract_summary (audit_text : String) : String :=
  let ls := summary_scan (audit_text.splitOn "\n") false []
  if ls ≠ [] then String.intercalate " " ls else audit_text.take 200

/-- Loop body of `AIService._extract_thesis`: collect all non-empty stripped
lines after a line containing INVESTMENT THESIS. -/
def thesis_scan : List String → Bool → List String → List String
  | [], _, acc => acc
  | line :: rest, in_th, acc =>
    if hasSub line.toUpper "INVESTMENT THESIS" then thesis_scan rest true acc
    else if in_th ∧ line.trim ≠ "" then thesis_scan rest in_th (acc ++ [line.trim])
    else thesis_scan rest in_th acc

/-- Embedding of `AIService._extract_thesis`. -/
def extract_thesis (audit_text : String) : String :=
  let ls := thesis_scan (audit_text.splitOn "\n") false []
  if ls ≠ [] then String.intercalate " " ls
  else "Moderate investment opportunity with balanced risk-reward profile."

/-- The recommendation conditional of `_generate_sample_audit` (it appears
verbatim both in the rendered report and in the investment_thesis field). -/
def sample_recommendation (valuation_score growth_score : ℚ) : String :=
  if valuation_score > 85 ∧ growth_score > 80 then "STRONG BUY"
  else if valuation_score > 75 then "BUY"
  else "HOLD"

/-- Embedding of `AIService._generate_sample_audit` (the template strategy).
Score defaults mirror the `.get` calls: valuation 75, growth 70, risk 35.
Numbers interpolated into the summary text are rendered with `toString`. -/
def generate_sample_audit (pd : PropertyDict) (analytics : AnalyticsDict) : Audit :=
  let valuation_score := analytics.ai_valuation_score.getD 75
  let growth_score := analytics.ai_growth_score.getD 70
  let risk_score := analytics.ai_risk_score.getD 35
  { property_id := pd.id
    summary :=
      "This property presents a " ++ (if valuation_score > 80 then "strong" else "moderate") ++
      " investment opportunity with a valuation score of " ++ toString valuation_score ++
      "/100 and growth potential of " ++ toString growth_score ++ "/100."
    investment_thesis :=
      sample_recommendation valuation_score growth_score ++
      (" - This property represents a " ++
       (if valuation_score > 85 then "compelling" else "solid") ++
       " investment with " ++
       (if valuation_score > 85 then "excellent" else "good") ++
       " appreciation potential.")
    overall_score := pyRound ((valuation_score + growth_score + (100 - risk_score)) / 3) 1
    valuation_score := valuation_score
    growth_score := growth_score
    risk_score := risk_score }

/-- Outcome of the external language-model call inside the try block:
either the returned audit text, or some exception was raised (network
failure, malformed response, and so on — the except clause catches all). -/
inductive LLMOutcome where
  | ok (text : String)
  | raised
deriving DecidableEq

/-- Embedding of `AIService.generate_investment_audit`: with no configured
client (no credential) the template audit is returned; inside the try block
any raised exception is caught and the template audit returned; on success the
audit is assembled from the response text and the analytics scores
(overall_score is the valuation score, default 75). -/
def generate_investment_audit (has_client : Bool) (outcome : LLMOutcome)
    (pd : PropertyDict) (analytics : AnalyticsDict) : Audit :=
  if has_client = false then generate_sample_audit pd analytics
  else
    match outcome with
    | .raised => generate_sample_audit pd analytics
    | .ok text =>
      { property_id := pd.id
        summary := extract_summary text
        investment_thesis := extract_thesis text
        overall_score := analytics.ai_valuation_score.getD 75
        valuation_score := analytics.ai_valuation_score.getD 75
        growth_score := analytics.ai_growth_score.getD 70
        risk_score := analytics.ai_risk_score.getD 35 }

/-! Property service: `PropertyService.sync_properties`. The db is modelled as
a list of persisted records; the fetched batch as a list of fetched dicts.
The fetched dict of `DataService` carries the ingested fields only (no score
keys), so the per-key `setattr` loop of the update branch replaces exactly the
ingested-field block of the record and touches no score column. -/

/-- The ingested fields produced by `DataService` for one listing. -/
structure FetchedProp where
  address : String
  city : String
  state : String
  zip_code : String
  property_type : String
  bedrooms : ℤ
  bathrooms : ℚ
  sqft : ℤ
  year_built : ℤ
  list_price : ℚ
  price_per_sqft : ℚ
  status : String
  days_on_market : ℤ
  features : List (String × PyVal)
deriving DecidableEq

/-- The score block that `calculate_property_scores` returns (amenity,
structural, location plus the investment metrics). -/
structure Scores where
  amenity_score : ℚ
  structural_score : ℚ
  location_score : ℚ
  rental_yield : ℚ
  appreciation_rate : ℚ
  demand_index : ℚ
  supply_index : ℚ
  volatility_score : ℚ
deriving DecidableEq

/-- Embedding of `AnalyticsService.calculate_property_scores`: amenity,
structural (needs the wall-clock year), location (75 default when the street
stats dict is empty or absent) and the investment metrics. -/
def calculate_property_scores (current_year : ℤ) (p : FetchedProp)
    (street_stats : Option StreetStatsOut) : Scores :=
  let m := calculate_investment_metrics p.sqft p.list_price p.year_built p.days_on_market
  { amenity_score := calculate_amenity_score p.features
    structural_score := calculate_structural_score current_year p.year_built p.sqft
    location_score :=
      match street_stats with
      | some st => calculate_location_score p.price_per_sqft (some st.avg_price_per_sqft)
      | none => 75
    rental_yield := m.rental_yield
    appreciation_rate := m.appreciation_rate
    demand_index := m.demand_index
    supply_index := m.supply_index
    volatility_score := m.volatility_score }

/-- A persisted `Property` row: the ingested-field block, the computed score
block, and the AI score columns (never written by sync, so nullable). -/
structure PropertyRec where
  data : FetchedProp
  scores : Scores
  ai_valuation_score : Option ℚ
  ai_growth_score : Option ℚ
  ai_risk_score : Option ℚ
deriving DecidableEq

/-- The update branch of the sync loop: `query(...).first()` followed by
per-key `setattr` overwrites the ingested fields of the first record whose
address equals the fetched address, leaving every other column unchanged. -/
def sync_update_first (f : FetchedProp) : List PropertyRec → List PropertyRec
  | [] => []
  | r :: rs =>
    if r.data.address = f.address then { r with data := f } :: rs
    else r :: sync_update_first f rs

/-- One iteration of the `sync_properties` loop: update the first record with
the same address if one exists, else compute scores (no street stats at sync
time) and append the new record (AI score columns left null). -/
def sync_one (current_year : ℤ) (db : List PropertyRec) (f : FetchedProp) :
    List PropertyRec :=
  if db.any fun r => r.data.address = f.address then sync_update_first f db
  else
    db ++ [{ data := f
             scores := calculate_property_scores current_year f none
             ai_valuation_score := none
             ai_growth_score := none
             ai_risk_score := none }]

/-- Embedding of `PropertyService.sync_properties`: fold the sync step over
the fetched batch. -/
def sync_properties (current_year : ℤ) (db : List PropertyRec)
    (batch : List FetchedProp) : List PropertyRec :=
  batch.foldl (sync_one current_year) db

/-! Concrete sample inputs used by the witness theorems. -/

/-- A property dict with no keys set. -/
def pd0 : PropertyDict := ⟨none, none, none, none, none⟩

/-- An analytics dict with no keys set. -/
def a0 : AnalyticsDict := ⟨none, none, none, none, none, none, none, none, none⟩

/-- An analytics dict with AI scores valuation 80, growth 70, risk 40. -/
def a1 : AnalyticsDict :=
  { a0 with ai_valuation_score := some 80, ai_growth_score := some 70, ai_risk_score := some 40 }

/-- A sample fetched listing. -/
def f1 : FetchedProp :=
  { address := "1 Main St", city := "Austin", state := "TX", zip_code := "78701"
    property_type := "Single Family", bedrooms := 3, bathrooms := 2, sqft := 2000
    year_built := 2010, list_price := 500000, price_per_sqft := 250, status := "Active"
    days_on_market := 10, features := [("pool", PyVal.bool true)] }

/-- A second sample fetched listing at a different address. -/
def f2 : FetchedProp := { f1 with address := "2 Oak Ave", list_price := 600000 }

/-- A persisted record obtained by inserting `f1`. -/
def rec1 : PropertyRec :=
  { data := f1, scores := calculate_property_scores 2024 f1 none
    ai_valuation_score := none, ai_growth_score := none, ai_risk_score := none }

/-- The three-record street (prices 100, 200, 300) named by claim C7. -/
def props3 : List StatRecord :=
  [⟨some 100, none, none⟩, ⟨some 200, none, none⟩, ⟨some 300, none, none⟩]

/-! Helper lemmas. -/

theorem amenity_contribution_nonneg (f : List (String × PyVal)) (name : String) (w : ℤ)
    (hw : 0 ≤ w)
    (hg : name = "garage" →
      ∀ v, lookupVal f name = some v → v.isIntInstance = true → 0 ≤ v.asInt) :
    0 ≤ amenity_contribution f name w := by
  cases hfind : lookupVal f name with
  | none => simp [amenity_contribution, hfind]
  | some v =>
    simp only [amenity_contribution, hfind]
    by_cases h1 : name = "garage" ∧ v.isIntInstance = true
    · rw [if_pos h1]
      exact mul_nonneg (hg h1.1 v hfind h1.2) hw
    · rw [if_neg h1]
      by_cases h2 : v.truthy = true
      · rw [if_pos h2]; exact hw
      · rw [if_neg h2]

theorem amenity_sum_nonneg (f : List (String × PyVal))
    (hg : ∀ v, lookupVal f "garage" = some v → v.isIntInstance = true → 0 ≤ v.asInt) :
    0 ≤ (amenity_weights.map fun p => amenity_contribution f p.1 p.2).sum := by
  apply List.sum_nonneg
  intro x hx
  rcases List.mem_map.mp hx with ⟨p, hp, rfl⟩
  have hw : 0 ≤ p.2 := by fin_cases hp <;> norm_num
  apply amenity_contribution_nonneg f p.1 p.2 hw
  intro hname v hv hinst
  rw [hname] at hv
  exact hg v hv hinst

/-! Claim C1. -/

/-- C1 counterexample: the feature map with a single garage entry equal to the
integer -1 is sent to amenity score 50 + (-1)*3 = 47, strictly below 50, so
the claimed lower bound of 50 over all feature maps with integer garage
entries is false on the code. -/
theorem amenity_score_cex :
    calculate_amenity_score [("garage", PyVal.int (-1))] = 47 ∧
    calculate_amenity_score [("garage", PyVal.int (-1))] < 50 := by
  have h : calculate_amenity_score [("garage", PyVal.int (-1))] = 47 := by
    simp [calculate_amenity_score, amenity_contribution, amenity_weights, lookupVal,
          PyVal.asInt, PyVal.isIntInstance, PyVal.truthy, min_def]
    norm_num
  exact ⟨h, by rw [h]; norm_num⟩

/-- C1 (amended): for every feature map the amenity score is at most 100; for
a feature map whose garage entry, when an int instance, is non-negative, the
score lies in [50,100]; the empty feature map yields exactly 50; and the map
with only a truthy pool entry yields exactly 60. (The unamended all-maps lower
bound fails: a negative integer garage entry drives the score below 50.) -/
theorem amenity_score_amended (f g : List (String × PyVal))
    (hg : ∀ v, lookupVal g "garage" = some v → v.isIntInstance = true → 0 ≤ v.asInt) :
    calculate_amenity_score f ≤ 100 ∧
    (50 ≤ calculate_amenity_score g ∧ calculate_amenity_score g ≤ 100) ∧
    calculate_amenity_score [] = 50 ∧
    calculate_amenity_score [("pool", PyVal.bool true)] = 60 := by
  refine ⟨?_, ⟨?_, ?_⟩, ?_, ?_⟩
  · unfold calculate_amenity_score
    split
    · norm_num
    · exact min_le_right _ _
  · unfold calculate_amenity_score
    split
    · norm_num
    · have hs := amenity_sum_nonneg g hg
      have hc : (0 : ℚ) ≤
          (((amenity_weights.map fun p => amenity_contribution g p.1 p.2).sum : ℤ) : ℚ) := by
        exact_mod_cast hs
      apply le_min <;> [linarith; norm_num]
  · unfold calculate_amenity_score
    split
    · norm_num
    · exact min_le_right _ _
  · rfl
  · simp [calculate_amenity_score, amenity_contribution, amenity_weights, lookupVal,
          PyVal.asInt, PyVal.isIntInstance, PyVal.truthy, min_def]
    norm_num

/-- C1 witness: the amended theorem applied at the garage-free feature map
with a solar-panels entry. -/
theorem amenity_score_amended_witness :
    50 ≤ calculate_amenity_score [("solar_panels", PyVal.int 2)] ∧
    calculate_amenity_score [("solar_panels", PyVal.int 2)] ≤ 100 :=
  (amenity_score_amended [] [("solar_panels", PyVal.int 2)]
    (fun v hv _ => by
      have h0 : lookupVal [("solar_panels", PyVal.int 2)] "garage" = none := rfl
      rw [h0] at hv
      exact Option.noConfusion hv)).2.1

/-! Claim C8. -/

/-- C8: the location score of any price-per-area input against any baseline
entry lies in [70,100]; a zero baseline average yields exactly 75 regardless
of the input; and with a non-zero baseline average the score follows the
ratio bands [0.95,1.05] to 100, [0.85,0.95) to 95, (1.05,1.15] to 90,
below 0.85 to 80, above 1.15 to 70. -/
theorem location_score_claim (x avg : ℚ) (e : Option ℚ) (h : avg ≠ 0) :
    calculate_location_score x (some 0) = 75 ∧
    (70 ≤ calculate_location_score x e ∧ calculate_location_score x e ≤ 100) ∧
    ((0.95 ≤ x / avg ∧ x / avg ≤ 1.05) → calculate_location_score x (some avg) = 100) ∧
    ((0.85 ≤ x / avg ∧ x / avg < 0.95) → calculate_location_score x (some avg) = 95) ∧
    ((1.05 < x / avg ∧ x / avg ≤ 1.15) → calculate_location_score x (some avg) = 90) ∧
    (x / avg < 0.85 → calculate_location_score x (some avg) = 80) ∧
    (1.15 < x / avg → calculate_location_score x (some avg) = 70) := by
  refine ⟨?_, ?_, ?_, ?_, ?_, ?_, ?_⟩
  · simp [calculate_location_score]
  · unfold calculate_location_score
    dsimp only
    split_ifs <;> norm_num
  · rintro ⟨hb1, hb2⟩
    unfold calculate_location_score
    simp only [Option.getD_some]
    rw [if_neg h, if_pos ⟨hb1, hb2⟩]
  · rintro ⟨hb1, hb2⟩
    unfold calculate_location_score
    simp only [Option.getD_some]
    rw [if_neg h, if_neg (by rintro ⟨hc1, _⟩; linarith), if_pos ⟨hb1, hb2⟩]
  · rintro ⟨hb1, hb2⟩
    unfold calculate_location_score
    simp only [Option.getD_some]
    rw [if_neg h, if_neg (by rintro ⟨_, hc2⟩; linarith),
        if_neg (by rintro ⟨_, hc2⟩; linarith), if_pos ⟨hb1, hb2⟩]
  · intro hb
    unfold calculate_location_score
    simp only [Option.getD_some]
    rw [if_neg h, if_neg (by rintro ⟨hc1, _⟩; linarith),
        if_neg (by rintro ⟨hc1, _⟩; linarith),
        if_neg (by rintro ⟨hc1, _⟩; linarith), if_pos hb]
  · intro hb
    unfold calculate_location_score
    simp only [Option.getD_some]
    rw [if_neg h, if_neg (by rintro ⟨_, hc2⟩; linarith),
        if_neg (by rintro ⟨_, hc2⟩; linarith),
        if_neg (by rintro ⟨_, hc2⟩; linarith), if_neg (by intro hc; linarith)]

/-- C8 witness: the claim theorem applied at price per sqft 100 against
baseline average 100 (ratio 1, score 100) and baseline average 0 (score 75). -/
theorem location_score_claim_witness :
    calculate_location_score 100 (some 0) = 75 ∧
    calculate_location_score 100 (some 100) = 100 := by
  have t := location_score_claim 100 100 (some 100) (by norm_num)
  exact ⟨t.1, t.2.2.1 ⟨by norm_num, by norm_num⟩⟩

/-! Claim C9. -/

/-- C9: the rental yield computed by the investment metrics equals
(area times 1.2 times 12 divided by price) times 100, rounded to two decimal
places, whenever the price is positive, and equals exactly 0 when the price
is not positive; the division is guarded, so the (total) function never
raises an arithmetic fault. -/
theorem rental_yield_claim (sqft : ℤ) (price : ℚ) (yb dom : ℤ) :
    (0 < price →
      (calculate_investment_metrics sqft price yb dom).rental_yield
        = pyRound ((sqft : ℚ) * 1.2 * 12 / price * 100) 2) ∧
    (price ≤ 0 → (calculate_investment_metrics sqft price yb dom).rental_yield = 0) := by
  constructor
  · intro hp
    simp only [calculate_investment_metrics]
    rw [if_pos hp]
  · intro hp
    simp only [calculate_investment_metrics]
    rw [if_neg (not_lt.mpr hp)]
    simp [pyRound]

/-- C9 witness: the claim theorem applied at a 1000 sqft property priced
240000 (positive branch) and at price 0 (guarded branch). -/
theorem rental_yield_claim_witness :
    (calculate_investment_metrics 1000 240000 2000 30).rental_yield
      = pyRound ((1000 : ℚ) * 1.2 * 12 / 240000 * 100) 2 ∧
    (calculate_investment_metrics 1000 0 2000 30).rental_yield = 0 :=
  ⟨(rental_yield_claim 1000 240000 2000 30).1 (by norm_num),
   (rental_yield_claim 1000 0 2000 30).2 le_rfl⟩

/-! Claim C4. -/

/-- C4: the template recommendation is STRONG BUY iff valuation > 85 and
growth > 80; BUY iff valuation > 75 and not (valuation > 85 and growth > 80);
HOLD whenever valuation is at most 75; and the investment thesis of the
template audit starts with this recommendation. -/
theorem recommendation_claim (v g : ℚ) (pd : PropertyDict) (a : AnalyticsDict) :
    (sample_recommendation v g = "STRONG BUY" ↔ v > 85 ∧ g > 80) ∧
    (sample_recommendation v g = "BUY" ↔ v > 75 ∧ ¬(v > 85 ∧ g > 80)) ∧
    (v ≤ 75 → sample_recommendation v g = "HOLD") ∧
    (∃ rest, (generate_sample_audit pd a).investment_thesis
        = sample_recommendation (a.ai_valuation_score.getD 75)
            (a.ai_growth_score.getD 70) ++ rest) := by
  refine ⟨?_, ?_, ?_, ⟨_, rfl⟩⟩
  · unfold sample_recommendation
    split_ifs with h1 h2
    · exact iff_of_true rfl h1
    · exact iff_of_false (by decide) h1
    · exact iff_of_false (by decide) h1
  · unfold sample_recommendation
    split_ifs with h1 h2
    · exact iff_of_false (by decide) fun hc => hc.2 h1
    · exact iff_of_true rfl ⟨h2, h1⟩
    · exact iff_of_false (by decide) fun hc => h2 hc.1
  · intro hv
    unfold sample_recommendation
    rw [if_neg (by rintro ⟨hc, _⟩; linarith), if_neg (by intro hc; linarith)]

/-- C4 witness: the claim theorem applied at valuation 70 (HOLD branch) and
at valuation and growth 90 (STRONG BUY branch). -/
theorem recommendation_claim_witness :
    sample_recommendation 70 90 = "HOLD" ∧ sample_recommendation 90 90 = "STRONG BUY" :=
  ⟨(recommendation_claim 70 90 pd0 a0).2.2.1 (by norm_num),
   (recommendation_claim 90 90 pd0 a0).1.mpr ⟨by norm_num, by norm_num⟩⟩

/-! Claim C5. -/

/-- C5: the template audit overall score equals
round((valuation + growth + (100 - risk)) / 3, 1), and feeding the numeric
scores reported by the audit back through this formula reproduces the stated
overall score exactly. -/
theorem overall_score_roundtrip (pd : PropertyDict) (a : AnalyticsDict) :
    (generate_sample_audit pd a).overall_score
      = pyRound (((generate_sample_audit pd a).valuation_score
          + (generate_sample_audit pd a).growth_score
          + (100 - (generate_sample_audit pd a).risk_score)) / 3) 1 := rfl

/-! Claim C3. -/

/-- C3: whenever the generative path is unavailable (no configured client) or
the external call raises, the audit generator returns the template audit; the
caller never observes an error (the embedding is a total function). -/
theorem audit_fallback_claim (hc : Bool) (outcome : LLMOutcome)
    (pd : PropertyDict) (a : AnalyticsDict) (h : hc = false ∨ outcome = LLMOutcome.raised) :
    generate_investment_audit hc outcome pd a = generate_sample_audit pd a := by
  rcases h with h | h
  · simp [generate_investment_audit, h]
  · subst h
    cases hc <;> simp [generate_investment_audit]

/-- C3 witness: the claim theorem applied with no client configured, and with
a client whose call raised. -/
theorem audit_fallback_claim_witness :
    generate_investment_audit false (LLMOutcome.ok "report") pd0 a0
        = generate_sample_audit pd0 a0 ∧
    generate_investment_audit true LLMOutcome.raised pd0 a1 = generate_sample_audit pd0 a1 :=
  ⟨audit_fallback_claim false (LLMOutcome.ok "report") pd0 a0 (Or.inl rfl),
   audit_fallback_claim true LLMOutcome.raised pd0 a1 (Or.inr rfl)⟩

/-! Claim C10. -/

/-- C10: when the generative strategy succeeds, the audit overall score is the
analytics valuation score (default 75), not the template mean formula; hence
the two strategies disagree on the overall score exactly when the valuation
score differs from round((valuation + growth + (100 - risk)) / 3, 1). -/
theorem generative_overall_claim (text : String) (pd : PropertyDict) (a : AnalyticsDict) :
    (generate_investment_audit true (LLMOutcome.ok text) pd a).overall_score
      = a.ai_valuation_score.getD 75 ∧
    ((generate_investment_audit true (LLMOutcome.ok text) pd a).overall_score
        ≠ (generate_sample_audit pd a).overall_score
      ↔ a.ai_valuation_score.getD 75
          ≠ pyRound ((a.ai_valuation_score.getD 75 + a.ai_growth_score.getD 70
              + (100 - a.ai_risk_score.getD 35)) / 3) 1) :=
  ⟨rfl, Iff.rfl⟩

/-- C10 witness: at AI scores valuation 80, growth 70, risk 40 the generative
audit reports overall 80 while the template audit reports overall 70. -/
theorem generative_overall_claim_witness :
    (generate_investment_audit true (LLMOutcome.ok "report") pd0 a1).overall_score
      ≠ (generate_sample_audit pd0 a1).overall_score :=
  (generative_overall_claim "report" pd0 a1).2.mpr
    (by norm_num [a1, a0, pyRound, round_eq])

/-! Claim C2. -/

theorem sync_update_first_frame (f : FetchedProp) (db : List PropertyRec) :
    (sync_update_first f db).map PropertyRec.scores = db.map PropertyRec.scores ∧
    (sync_update_first f db).map
        (fun r => (r.ai_valuation_score, r.ai_growth_score, r.ai_risk_score))
      = db.map (fun r => (r.ai_valuation_score, r.ai_growth_score, r.ai_risk_score)) := by
  induction db with
  | nil => exact ⟨rfl, rfl⟩
  | cons r rs ih =>
    by_cases h : r.data.address = f.address
    · simp [sync_update_first, h]
    · simp only [sync_update_first, if_neg h, List.map_cons]
      exact ⟨by rw [ih.1], by rw [ih.2]⟩

theorem sync_update_first_eq (f : FetchedProp) (l1 : List PropertyRec) (r : PropertyRec)
    (l2 : List PropertyRec) (h1 : ∀ r2 ∈ l1, r2.data.address ≠ f.address)
    (h2 : r.data.address = f.address) :
    sync_update_first f (l1 ++ r :: l2) = l1 ++ { r with data := f } :: l2 := by
  induction l1 with
  | nil => simp [sync_update_first, h2]
  | cons x xs ih =>
    simp only [List.cons_append, sync_update_first, List.append_eq]
    rw [if_neg (h1 x (List.mem_cons_self x xs)),
        ih fun r2 hr2 => h1 r2 (List.mem_cons_of_mem x hr2)]

/-- C2: one sync step on a record whose address matches a persisted record
replaces exactly the ingested-field block of the first matching record with
the freshly fetched values, leaving every computed score field (the score
block and the AI score columns) of every record unchanged; on a fresh address
it appends a new record whose score block is computed by
`calculate_property_scores` (AI score columns left null). -/
theorem sync_claim (cy : ℤ) (db : List PropertyRec) (f : FetchedProp) :
    (∀ l1 r l2, db = l1 ++ r :: l2 →
        (∀ r2 ∈ l1, r2.data.address ≠ f.address) → r.data.address = f.address →
        sync_one cy db f = l1 ++ { r with data := f } :: l2) ∧
    ((∃ r ∈ db, r.data.address = f.address) →
        (sync_one cy db f).map PropertyRec.scores = db.map PropertyRec.scores ∧
        (sync_one cy db f).map
            (fun r => (r.ai_valuation_score, r.ai_growth_score, r.ai_risk_score))
          = db.map (fun r => (r.ai_valuation_score, r.ai_growth_score, r.ai_risk_score))) ∧
    ((∀ r ∈ db, r.data.address ≠ f.address) →
        sync_one cy db f = db ++
          [{ data := f, scores := calculate_property_scores cy f none
             ai_valuation_score := none, ai_growth_score := none, ai_risk_score := none }]) := by
  refine ⟨?_, ?_, ?_⟩
  · rintro l1 r l2 rfl hl1 hr
    have hany : ((l1 ++ r :: l2).any fun r2 => r2.data.address = f.address) = true := by
      rw [List.any_eq_true]
      exact ⟨r, by simp, by simpa using hr⟩
    unfold sync_one
    rw [if_pos hany]
    exact sync_update_first_eq f l1 r l2 hl1 hr
  · rintro ⟨r, hrm, hra⟩
    have hany : (db.any fun r2 => r2.data.address = f.address) = true := by
      rw [List.any_eq_true]
      exact ⟨r, hrm, by simpa using hra⟩
    unfold sync_one
    rw [if_pos hany]
    exact sync_update_first_frame f db
  · intro hnone
    have hany : (db.any fun r2 => r2.data.address = f.address) = false := by
      rw [List.any_eq_false]
      intro r hrm
      simpa using hnone r hrm
    unfold sync_one
    rw [if_neg (by simp [hany])]

/-- C2 witness: the claim theorem applied to a one-record database, once with
a re-fetch of the same address at a new price (in-place update, scores kept)
and once with a fresh address (insert with computed scores). -/
theorem sync_claim_witness :
    sync_one 2024 [rec1] { f1 with list_price := 550000 }
      = [{ rec1 with data := { f1 with list_price := 550000 } }] ∧
    sync_one 2024 [rec1] f2
      = [rec1, { data := f2, scores := calculate_property_scores 2024 f2 none
                 ai_valuation_score := none, ai_growth_score := none,
                 ai_risk_score := none }] := by
  constructor
  · have t := (sync_claim 2024 [rec1] { f1 with list_price := 550000 }).1 [] rec1 []
      rfl (by simp) rfl
    simpa using t
  · have t := (sync_claim 2024 [rec1] f2).2.2 ?_
    · simpa using t
    · intro r hrm
      rw [List.mem_singleton] at hrm
      subst hrm
      show rec1.data.address ≠ f2.address
      simp [rec1, f1, f2]

/-! Claims C6 and C7: aggregation and street comparison. -/

theorem normCdf_zero : normCdf 0 = 1 / 2 := by
  unfold normCdf
  have h1 : (∫ x in Set.Iic (0 : ℝ), Real.exp (-(1 / 2) * x ^ 2))
      = ∫ x in Set.Ioi (0 : ℝ), Real.exp (-(1 / 2) * x ^ 2) := by
    have h := integral_comp_neg_Iic (0 : ℝ) fun x => Real.exp (-(1 / 2) * x ^ 2)
    simp only [neg_zero] at h
    rw [← h]
    simp only [neg_sq]
  rw [h1, integral_gaussian_Ioi]
  have h2 : Real.pi / (1 / 2) = 2 * Real.pi := by ring
  rw [h2]
  have hs : Real.sqrt (2 * Real.pi) ≠ 0 := by
    positivity
  rw [div_right_comm, div_self hs]

/-- C6 counterexample: over the empty record set the aggregation returns the
empty dict (no statistic entries at all, modelled as `none`), not a statistics
record with count 0 and zero means. -/
theorem street_stats_cex :
    calculate_street_stats [] = none ∧
    ¬ ∃ s : StreetStatsOut, calculate_street_stats [] = some s ∧ s.property_count = 0 := by
  refine ⟨rfl, ?_⟩
  rintro ⟨s, hs, -⟩
  rw [show calculate_street_stats [] = none from rfl] at hs
  exact Option.noConfusion hs

/-- C6 (amended): over the empty record set the aggregation returns the empty
dict rather than raising (the embedding is a total function returning `none`);
and over a non-empty record set, each metric whose column has no
present-and-truthy contributors is the zero default: price with no
contributors zeroes the price mean, median and standard deviation; price per
sqft with no contributors zeroes its mean; sqft with no contributors zeroes
its mean. -/
theorem street_stats_amended (props : List StatRecord) :
    calculate_street_stats [] = none ∧
    (props ≠ [] →
      ∃ s, calculate_street_stats props = some s ∧
        s.property_count = props.length ∧
        (truthyColumn props (fun p => p.list_price) = [] →
          s.avg_price = 0 ∧ s.median_price = 0 ∧ s.std_price = 0) ∧
        (truthyColumn props (fun p => p.price_per_sqft) = [] →
          s.avg_price_per_sqft = 0) ∧
        (truthyColumn props (fun p => p.sqft) = [] → s.avg_sqft = 0)) := by
  refine ⟨rfl, ?_⟩
  intro hne
  unfold calculate_street_stats
  rw [if_neg (by simpa [List.isEmpty_iff] using hne)]
  refine ⟨_, rfl, rfl, ?_, ?_, ?_⟩
  · intro hpr
    refine ⟨?_, ?_, ?_⟩ <;> simp [hpr]
  · intro hpp
    simp [hpp]
  · intro hsq
    simp [hsq]

/-- C6 witness: the amended theorem applied to a one-record set whose price,
price-per-sqft and sqft columns are all null, so every metric takes its zero
default. -/
theorem street_stats_amended_witness :
    ∃ s, calculate_street_stats [⟨none, none, none⟩] = some s ∧
      s.property_count = 1 ∧ s.avg_price = 0 ∧ s.median_price = 0 ∧ s.std_price = 0 ∧
      s.avg_price_per_sqft = 0 ∧ s.avg_sqft = 0 := by
  have t := (street_stats_amended [⟨none, none, none⟩]).2 (by simp)
  rcases t with ⟨s, hs, hc, h1, h2, h3⟩
  exact ⟨s, hs, hc, (h1 rfl).1, (h1 rfl).2.1, (h1 rfl).2.2, h2 rfl, h3 rfl⟩

theorem zscore_to_percentile_zero : zscore_to_percentile 0 = 50 := by
  unfold zscore_to_percentile pyTrunc
  rw [normCdf_zero]
  norm_num

theorem compare_zscore_of (price ppsf sqft : ℚ) (st : StreetStatsOut)
    (hpos : 0 < st.std_price) (havg : st.avg_price = price) :
    (compare_to_street price ppsf sqft (some st)).price_zscore = some 0 ∧
    (compare_to_street price ppsf sqft (some st)).price_percentile
      = some (zscore_to_percentile 0) := by
  have hz : ((price : ℝ) - (st.avg_price : ℝ)) / st.std_price = 0 := by
    rw [havg, sub_self, zero_div]
  simp only [compare_to_street]
  rw [if_pos hpos, hz]
  constructor
  · show some (pyRoundR 0 2) = some 0
    norm_num [pyRoundR]
  · rfl

/-- C7 counterexample: on a street whose baseline price standard deviation is
0 (one record, price 100) the comparison omits the z-score entry entirely
(the std-positive guard fails), rather than producing a z-score of 0 as
claimed. -/
theorem street_zscore_cex :
    ∃ s : StreetStatsOut,
      calculate_street_stats [⟨some 100, none, none⟩] = some s ∧ s.std_price = 0 ∧
      (compare_to_street 100 0 0 (calculate_street_stats [⟨some 100, none, none⟩])).price_zscore
        = none := by
  have htr : truthyColumn [⟨some 100, none, none⟩] (fun p => p.list_price) = [100] := rfl
  have hstd : npStd [(100 : ℚ)] = 0 := by norm_num [npStd, npVariance, npMean]
  refine ⟨_, rfl, ?_, ?_⟩
  · show (if (truthyColumn [⟨some 100, none, none⟩] fun p => p.list_price).isEmpty then (0 : ℝ)
      else npStd (truthyColumn [⟨some 100, none, none⟩] fun p => p.list_price)) = 0
    rw [htr]
    simpa using hstd
  · show (compare_to_street 100 0 0 (some _)).price_zscore = none
    simp only [compare_to_street]
    have hstd2 : (if (truthyColumn [⟨some 100, none, none⟩] fun p => p.list_price).isEmpty
        then (0 : ℝ)
        else npStd (truthyColumn [⟨some 100, none, none⟩] fun p => p.list_price)) = 0 := by
      rw [htr]; simpa using hstd
    rw [if_neg]
    rw [hstd2]
    norm_num

/-- C7 (amended): when the baseline price standard deviation is 0 the
comparison emits no z-score and no percentile (the claimed z-score 0 is not
produced); and for baseline prices [100,200,300] (mean 200, population
standard deviation the square root of 20000/3) a property priced 200 gets
z-score 0 and percentile 50 via the standard normal cdf. -/
theorem street_zscore_amended (price ppsf sqft : ℚ) (st : StreetStatsOut)
    (h : st.std_price = 0) :
    ((compare_to_street price ppsf sqft (some st)).price_zscore = none ∧
     (compare_to_street price ppsf sqft (some st)).price_percentile = none) ∧
    (∃ s : StreetStatsOut,
      calculate_street_stats props3 = some s ∧
      s.avg_price = 200 ∧ s.std_price ^ 2 = 20000 / 3 ∧ 0 < s.std_price ∧
      (compare_to_street 200 0 0 (some s)).price_zscore = some 0 ∧
      (compare_to_street 200 0 0 (some s)).price_percentile = some 50) := by
  constructor
  · constructor <;> simp [compare_to_street, h]
  · have htr : truthyColumn props3 (fun p => p.list_price) = [100, 200, 300] := rfl
    have hppsf : truthyColumn props3 (fun p => p.price_per_sqft) = [] := rfl
    have hsq : truthyColumn props3 (fun p => p.sqft) = [] := rfl
    have hmean : npMean [(100 : ℚ), 200, 300] = 200 := by norm_num [npMean]
    have hvar : npVariance [(100 : ℚ), 200, 300] = 20000 / 3 := by
      norm_num [npVariance, npMean]
    have hcast : ((npVariance [(100 : ℚ), 200, 300] : ℚ) : ℝ) = 20000 / 3 := by
      rw [hvar]; norm_num
    have hpos : 0 < npStd [(100 : ℚ), 200, 300] := by
      simp only [npStd, hcast]
      exact Real.sqrt_pos.mpr (by norm_num)
    refine ⟨{ property_count := 3, avg_price := 200,
              median_price := npMedian [100, 200, 300],
              avg_price_per_sqft := 0, std_price := npStd [100, 200, 300],
              avg_sqft := 0 },
            ?_, rfl, ?_, hpos, ?_, ?_⟩
    · unfold calculate_street_stats
      rw [if_neg (by simp [props3])]
      simp only [htr, hppsf, hsq]
      simp [props3, hmean]
    · simp only [npStd, hcast]
      rw [Real.sq_sqrt (by norm_num)]
    · exact (compare_zscore_of 200 0 0 _ hpos rfl).1
    · rw [(compare_zscore_of 200 0 0 _ hpos rfl).2, zscore_to_percentile_zero]

/-- C7 witness: the amended theorem applied to a stats dict with standard
deviation 0 (no z-score, no percentile emitted). -/
theorem street_zscore_amended_witness :
    (compare_to_street 100 0 0 (some ⟨1, 100, 100, 0, 0, 0⟩)).price_zscore = none ∧
    (compare_to_street 100 0 0 (some ⟨1, 100, 100, 0, 0, 0⟩)).price_percentile = none :=
  (street_zscore_amended 100 0 0 ⟨1, 100, 100, 0, 0, 0⟩ rfl).1

end ReiAI
